import Mathlib

/-!
Shallow embedding of the pipeline-orchestration and live-development core of
the `trunk` build tool (the Rust sources `src/build.rs`, `src/serve.rs`,
`src/pipelines/sse_reload.rs`), together with theorems settling the spec
claims about it.

Modelling conventions:
* Rust `Result<T, E>` becomes `Except`; `anyhow::Error` messages become
  `String`.
* The filesystem and the child pipelines are external effects; the functions
  that invoke them (`fs::create_dir_all`, `HtmlPipeline::spawn`,
  `fs::read`) are modelled by passing their `Except` outcome as an explicit
  argument, so theorems quantify over every possible outcome of the effect.
* The crossbeam unbounded channel is modelled by its FIFO queue of pending
  messages; all cloned receive handles share that one queue.
* Progress-bar calls are pure terminal output and are omitted from the model.
-/

namespace Trunk

/-- Build events, from `build.rs`:
`#[derive(Serialize)] #[serde(tag = "type")]
pub enum BuildEvent { Building, Success, Error(String) }`. -/
inductive BuildEvent where
  | Building : BuildEvent
  | Success : BuildEvent
  | Error : String → BuildEvent
deriving DecidableEq, Repr

/-- Whether an event is one of the two terminal outcomes of a build. -/
def BuildEvent.isTerminal : BuildEvent → Bool
  | .Building => false
  | .Success => true
  | .Error _ => true

/-- Whether an event is an `Error` event. -/
def BuildEvent.isError : BuildEvent → Bool
  | .Error _ => true
  | _ => false

/-- `serde_json::to_string` on `BuildEvent` with `#[serde(tag = "type")]` and
no rename attribute: a unit variant serializes to a one-field object whose
`type` value is the variant name exactly as declared; the newtype variant
`Error(String)` holds a primitive (a string), which serde's internally
tagged representation cannot serialize, so `to_string` returns `Err` for it
at runtime. -/
def serializeBuildEvent : BuildEvent → Except String String
  | .Building => .ok "\x7b\"type\":\"Building\"\x7d"
  | .Success => .ok "\x7b\"type\":\"Success\"\x7d"
  | .Error _ =>
      .error "cannot serialize tagged newtype variant BuildEvent::Error containing a string"

/-- The payload shape the spec's HTTP-surface section describes, transcribed
from the spec's words (lower-cased tag, `error` field for the message); kept
separate from `serializeBuildEvent`, which models the code, so the two can
be compared. -/
def specBuildEventPayload : BuildEvent → String
  | .Building => "\x7b\"type\":\"building\"\x7d"
  | .Success => "\x7b\"type\":\"success\"\x7d"
  | .Error msg => "\x7b\"type\":\"error\",\"error\":\"" ++ msg ++ "\"\x7d"

/-! ### Build Event Bus (crossbeam unbounded channel)

`ServeSystem::new` creates `let (build_event_tx, build_event_rx) = unbounded()`.
An unbounded crossbeam channel is a multi-producer multi-consumer FIFO queue:
`send` appends to the queue and never blocks; `recv` pops the oldest pending
message; every cloned `Receiver` handle shares the same queue, so cloning a
handle does not skip messages already queued. -/

/-- The sender-side view of the channel: either connected, carrying the shared
FIFO queue of pending events, or disconnected (every receiver dropped). -/
inductive ChanState where
  | connected : List BuildEvent → ChanState
  | disconnected : ChanState
deriving DecidableEq, Repr

/-- `Sender::send`: on a connected channel the event is appended to the queue
and the call succeeds; on a disconnected channel the event is dropped and the
call reports failure. Never blocks (total function). -/
def chanSend : ChanState → BuildEvent → ChanState × Bool
  | .connected q, e => (.connected (q ++ [e]), true)
  | .disconnected, _ => (.disconnected, false)

/-- `Receiver::recv` on the shared queue: pops the oldest pending event;
`none` models the blocking/closed case when the queue is empty. -/
def chanRecv : List BuildEvent → Option (BuildEvent × List BuildEvent)
  | [] => none
  | e :: rest => some (e, rest)

/-- Repeatedly `recv` until the queue is exhausted, collecting the events a
consumer observes, in order. -/
def chanDrain : List BuildEvent → List BuildEvent
  | [] => []
  | e :: rest => e :: chanDrain rest

/-- Publishing a sequence of events one after another on a connected queue. -/
def publishAll (q : List BuildEvent) : List BuildEvent → List BuildEvent
  | [] => q
  | e :: rest => publishAll (q ++ [e]) rest

/-! ### Build Orchestrator (`BuildSystem`, build.rs) -/

/-- `BuildSystem::send_build_event`: if an event channel is registered, send
the event and ignore the result (`let _ = receiver.send(...)`); otherwise do
nothing. The returned value is the channel's state afterwards. -/
def send_build_event (tx : Option ChanState) (event : BuildEvent) : Option ChanState :=
  match tx with
  | none => none
  | some c => some (chanSend c event).1

/-- `BuildSystem::do_build`, with the outcomes of its two external effects
passed in: `fs::create_dir_all(cfg.dist)` first (its `?` short-circuits), then
`html_pipeline.spawn()`. The `Bool` component records whether the pipeline
was invoked at all. -/
def do_build (mkdirRes : Except String Unit) (spawnRes : Except String Unit) :
    Except String Unit × Bool :=
  match mkdirRes with
  | .error e => (.error e, false)
  | .ok _ => (spawnRes, true)

/-- `BuildSystem::build`: sends `Building`, runs `do_build`, then on `Ok`
sends `Success` and returns `Ok(())`, on `Err(err)` sends
`Error(err.to_string())` and returns the error. Progress-bar manipulation is
omitted. Returns the channel state after the build together with `build`'s
result. -/
def build (tx : Option ChanState) (mkdirRes spawnRes : Except String Unit) :
    Option ChanState × Except String Unit :=
  let tx := send_build_event tx .Building
  match (do_build mkdirRes spawnRes).1 with
  | .ok _ => (send_build_event tx .Success, .ok ())
  | .error err => (send_build_event tx (.Error err), .error err)

/-! ### Development Server (`ServeSystem`, serve.rs) -/

/-- One proxy rule from the configuration's `proxies` list: a backend origin
and an optional rewrite (the path component is resolved inside
`ProxyHandlerHttp`, outside this core). -/
structure ProxyRule where
  backend : String
  rewrite : Option String
deriving DecidableEq, Repr

/-- A registered proxy handler, as constructed by
`ProxyHandlerHttp::new(backend, rewrite)`. -/
structure ProxyHandler where
  backend : String
  rewrite : Option String
deriving DecidableEq, Repr

/-- The proxy-registration portion of `ServeSystem::spawn_server`
(serve.rs lines 74–91):
`if let Some(backend) = &cfg.proxy_backend { register one handler }
 else if let Some(proxies) = &cfg.proxies { register one per rule }`.
Returns the handlers registered on the app, in registration order. -/
def spawn_server_proxies (proxy_backend : Option String)
    (proxy_rewrite : Option String) (proxies : Option (List ProxyRule)) :
    List ProxyHandler :=
  match proxy_backend with
  | some backend => [⟨backend, proxy_rewrite⟩]
  | none =>
    match proxies with
    | some ps => ps.map fun p => ⟨p.backend, p.rewrite⟩
    | none => []

/-- The body of the `/build_events` SSE endpoint (serve.rs lines 100–109):
`while let Ok(event) = build_event_rx.recv() {
   if let Ok(json) = serde_json::to_string(&event) {
     let _ = sender.send("build_event", json, None).await; } }`
modelled over the sequence of events the receive handle yields before it
closes. Returns the `(event name, payload)` messages pushed to the client,
in order. -/
def sse_endpoint_loop : List BuildEvent → List (String × String)
  | [] => []
  | event :: rest =>
    match serializeBuildEvent event with
    | .ok json => ("build_event", json) :: sse_endpoint_loop rest
    | .error _ => sse_endpoint_loop rest

/-- An HTTP response: status code, optional content type, body bytes. -/
structure Response where
  status : Nat
  contentType : Option String
  body : List Nat
deriving DecidableEq, Repr

/-- `load_index_html` (serve.rs lines 130–132): `Ok(fs::read(index).await?)` —
returns the file's bytes or propagates the read error. The `fs::read`
outcome is passed in explicitly. -/
def load_index_html (readRes : Except String (List Nat)) :
    Except String (List Nat) :=
  match readRes with
  | .ok bytes => .ok bytes
  | .error e => .error e

/-- `IndexHtmlMiddleware::handle` (serve.rs lines 139–149): run the inner
handler (`next.run(req)`), then match on the resulting status:
`NotFound` (404) is replaced by a 200 response with HTML content type and
the index file's bytes, where the file read's `?` propagates a read error;
every other status passes through unchanged. `res` is the inner handler's
response and `readRes` the outcome of `fs::read` on the index path. -/
def IndexHtmlMiddleware.handle (res : Response)
    (readRes : Except String (List Nat)) : Except String Response :=
  if res.status = 404 then
    match load_index_html readRes with
    | .ok bytes => .ok { status := 200, contentType := some "text/html", body := bytes }
    | .error e => .error e
  else .ok res

/-! ## Helper lemmas -/

/-- Draining a queue yields exactly its pending events, in order. -/
theorem chanDrain_eq (q : List BuildEvent) : chanDrain q = q := by
  induction q with
  | nil => rfl
  | cons e rest ih => simp [chanDrain, ih]

/-- Publishing events one by one appends them to the queue in publish order. -/
theorem publishAll_eq (q : List BuildEvent) (es : List BuildEvent) :
    publishAll q es = q ++ es := by
  induction es generalizing q with
  | nil => simp [publishAll]
  | cons e rest ih => simp [publishAll, ih]

/-! ## Claims -/

/-- Claim C1, counterexample. The claim states that the JSON payload pushed
for a `BuildEvent` has a lower-cased `type` tag (`\x7b"type":"building"\x7d`,
`\x7b"type":"success"\x7d`, `\x7b"type":"error","error":"<message>"\x7d`). The
code's `#[serde(tag = "type")]` derive has no rename attribute, so the tag is
the variant name as declared (`"Building"`, `"Success"`), and the newtype
variant `Error(String)` cannot be serialized at all under internal tagging:
for every variant the actual serialization differs from the claimed shape. -/
theorem C1_counterexample :
    serializeBuildEvent .Building ≠ .ok (specBuildEventPayload .Building)
  ∧ serializeBuildEvent .Success ≠ .ok (specBuildEventPayload .Success)
  ∧ serializeBuildEvent (.Error "boom") ≠ .ok (specBuildEventPayload (.Error "boom")) := by
  refine ⟨?_, ?_, ?_⟩ <;> simp [serializeBuildEvent, specBuildEventPayload]

/-- Claim C1, amended. Every message pushed over `/build_events` carries the
event name `build_event`; the payload tag field is named `type` and equals the
`BuildEvent` variant name exactly as declared: `\x7b"type":"Building"\x7d` for
`Building` and `\x7b"type":"Success"\x7d` for `Success`; an `Error(message)`
event fails JSON serialization (internally tagged newtype variant over a
string) and no message is pushed for it. -/
theorem C1_amended (msg : String) :
    sse_endpoint_loop [.Building]
      = [("build_event", "\x7b\"type\":\"Building\"\x7d")]
  ∧ sse_endpoint_loop [.Success]
      = [("build_event", "\x7b\"type\":\"Success\"\x7d")]
  ∧ sse_endpoint_loop [.Error msg] = [] := by
  refine ⟨rfl, rfl, rfl⟩

/-- Claim C2, counterexample. The claim states that a consumer observes no
event published before its receive handle was created — in particular a
build-event-stream client connecting after a build completed does not receive
that build's already-published messages. In the code all receive handles share
the crossbeam channel's single FIFO queue: after a successful build starting
from the empty queue, the queue holds `[Building, Success]`, and a receive
handle created only now still receives the `Building` event that was published
before it registered. -/
theorem C2_counterexample :
    (build (some (.connected [])) (.ok ()) (.ok ())).1
      = some (.connected [BuildEvent.Building, BuildEvent.Success])
  ∧ chanRecv [BuildEvent.Building, BuildEvent.Success]
      = some (BuildEvent.Building, [BuildEvent.Success]) :=
  ⟨rfl, rfl⟩

/-- Claim C2, amended. The Build Event Bus is a multi-producer multi-consumer
FIFO queue shared by all receive handles: each published event is delivered
exactly once, to whichever consumer receives it first, in publish order;
creating a receive handle does not skip already-queued events, so a consumer
draining the queue after registration observes the events published before its
handle was created followed by those published after, each exactly once and in
publish order. -/
theorem C2_amended (pendingBefore newlyPublished : List BuildEvent) :
    chanDrain (publishAll pendingBefore newlyPublished)
      = pendingBefore ++ newlyPublished := by
  rw [publishAll_eq, chanDrain_eq]

/-- Claim C3, counterexample. The claim states that when both the
single-backend form and a list of proxy rules are configured, the server
registers the single-backend handler and afterwards also one handler per rule.
The code's `if let Some(backend) ... else if let Some(proxies) ...` registers
only the single-backend handler when both are present: with backend `"http://a"`
and rule list `[\x7b backend := "http://b" \x7d]`, the registered handlers are
exactly `[⟨"http://a", none⟩]` and no handler for `"http://b"` exists. -/
theorem C3_counterexample :
    spawn_server_proxies (some "http://a") none (some [⟨"http://b", none⟩])
      = [⟨"http://a", none⟩]
  ∧ ProxyHandler.mk "http://b" none ∉
      spawn_server_proxies (some "http://a") none (some [⟨"http://b", none⟩]) := by
  refine ⟨rfl, ?_⟩
  simp [spawn_server_proxies]

/-- Claim C3, amended. When a proxy configuration contains both the
single-backend form and a list of proxy rules, the server registers only the
single-backend handler for its path; the rule list is ignored entirely (it is
consulted only in the `else` branch, i.e. when no single backend is set). -/
theorem C3_amended (backend : String) (rw : Option String) (ps : List ProxyRule) :
    spawn_server_proxies (some backend) rw (some ps) = [⟨backend, rw⟩] :=
  rfl

/-- Claim C4: for every call to `BuildSystem::build()` with a registered
event channel, a `Building` event is emitted before the terminal event, the
terminal event is `Success` or `Error`, and the two events emitted by the
build contain exactly one terminal event — whatever the outcomes of directory
creation and of the pipeline. -/
theorem C4_building_precedes_terminal (q : List BuildEvent)
    (mkdirRes spawnRes : Except String Unit) :
    ∃ t : BuildEvent,
      (build (some (.connected q)) mkdirRes spawnRes).1
        = some (.connected (q ++ [BuildEvent.Building, t]))
    ∧ t.isTerminal = true
    ∧ BuildEvent.Building.isTerminal = false
    ∧ [BuildEvent.Building, t].countP (fun e => e.isTerminal) = 1 := by
  cases mkdirRes with
  | error e =>
    exact ⟨.Error e, by simp [build, do_build, send_build_event, chanSend],
      rfl, rfl, by simp [List.countP, List.countP.go, BuildEvent.isTerminal]⟩
  | ok _ =>
    cases spawnRes with
    | error e =>
      exact ⟨.Error e, by simp [build, do_build, send_build_event, chanSend],
        rfl, rfl, by simp [List.countP, List.countP.go, BuildEvent.isTerminal]⟩
    | ok _ =>
      exact ⟨.Success, by simp [build, do_build, send_build_event, chanSend],
        rfl, rfl, by simp [List.countP, List.countP.go, BuildEvent.isTerminal]⟩

/-- Claim C5: the single-page-app fallback wrapper runs normal request
handling first and, exactly when the resulting status is 404 (not found),
replaces the response with a 200 response carrying the root document's bytes
and HTML content type (when the document read succeeds); every response with
any other status — including server errors — passes through unchanged,
regardless of the read's outcome. -/
theorem C5_spa_fallback (res : Response) (readRes : Except String (List Nat)) :
    (res.status ≠ 404 → IndexHtmlMiddleware.handle res readRes = .ok res)
  ∧ (∀ bytes : List Nat, res.status = 404 → readRes = .ok bytes →
      IndexHtmlMiddleware.handle res readRes
        = .ok { status := 200, contentType := some "text/html", body := bytes }) := by
  constructor
  · intro h
    simp [IndexHtmlMiddleware.handle, h]
  · intro bytes h h'
    subst h'
    simp [IndexHtmlMiddleware.handle, h, load_index_html]

/-- Witness for C5: a 500 response with an unreadable index passes through
unchanged, and a 404 response with readable index bytes `[104, 105]` becomes a
200 HTML response with those bytes. -/
theorem C5_spa_fallback_witness :
    IndexHtmlMiddleware.handle ⟨500, none, [7]⟩ (.error "io")
      = .ok ⟨500, none, [7]⟩
  ∧ IndexHtmlMiddleware.handle ⟨404, none, []⟩ (.ok [104, 105])
      = .ok ⟨200, some "text/html", [104, 105]⟩ :=
  ⟨(C5_spa_fallback ⟨500, none, [7]⟩ (.error "io")).1 (by decide),
   (C5_spa_fallback ⟨404, none, []⟩ (.ok [104, 105])).2 [104, 105] rfl rfl⟩

/-- Claim C6: if the pipeline's `spawn()` fails with a (non-empty) message,
`build()` returns that failure, the events emitted by this build are exactly
`Building` followed by one `Error` event carrying that same message — so
exactly one `Error` event, with a non-empty message. (`build` is a total
function: the failure is returned as a value, never a panic.) -/
theorem C6_spawn_failure (q : List BuildEvent) (msg : String) (hmsg : msg ≠ "") :
    (build (some (.connected q)) (.ok ()) (.error msg)).2 = .error msg
  ∧ (build (some (.connected q)) (.ok ()) (.error msg)).1
      = some (.connected (q ++ [BuildEvent.Building, BuildEvent.Error msg]))
  ∧ [BuildEvent.Building, BuildEvent.Error msg].countP (fun e => e.isError) = 1
  ∧ msg ≠ "" := by
  refine ⟨rfl, ?_, ?_, hmsg⟩
  · simp [build, do_build, send_build_event, chanSend]
  · simp [List.countP, List.countP.go, BuildEvent.isError]

/-- Witness for C6 at the concrete failure message `"spawn failed"`. -/
theorem C6_spawn_failure_witness :
    (build (some (.connected [])) (.ok ()) (.error "spawn failed")).2
      = .error "spawn failed"
  ∧ (build (some (.connected [])) (.ok ()) (.error "spawn failed")).1
      = some (.connected [BuildEvent.Building, BuildEvent.Error "spawn failed"])
  ∧ [BuildEvent.Building, BuildEvent.Error "spawn failed"].countP
      (fun e => e.isError) = 1
  ∧ "spawn failed" ≠ "" :=
  C6_spawn_failure [] "spawn failed" (by decide)

/-- Claim C7: event publication is best-effort. `build()`'s returned result
always equals the underlying build outcome (`do_build`), whatever the channel
state — absent, connected, or with all receivers dropped; with no channel
registered nothing is sent, and with a disconnected channel the send failure
is ignored. All send operations are total functions: they never block. -/
theorem C7_best_effort (tx : Option ChanState)
    (mkdirRes spawnRes : Except String Unit) :
    (build tx mkdirRes spawnRes).2 = (do_build mkdirRes spawnRes).1
  ∧ (build none mkdirRes spawnRes).1 = none
  ∧ (build (some .disconnected) mkdirRes spawnRes).1 = some .disconnected := by
  refine ⟨?_, ?_, ?_⟩ <;>
    cases mkdirRes with
    | error e => simp [build, do_build, send_build_event, chanSend]
    | ok _ =>
      cases spawnRes with
      | error e => simp [build, do_build, send_build_event, chanSend]
      | ok _ => simp [build, do_build, send_build_event, chanSend]

/-- Claim C8: `do_build` consults the outcome of `fs::create_dir_all` first:
when directory creation fails the pipeline is never invoked and the error is
returned, and `build()` then reports an `Err` result and emits a `Building`
then an `Error` event (no panic — all functions are total); the pipeline is
invoked exactly when directory creation succeeded. -/
theorem C8_mkdir_before_pipeline (q : List BuildEvent) (e : String)
    (spawnRes : Except String Unit) :
    do_build (.error e) spawnRes = (.error e, false)
  ∧ do_build (.ok ()) spawnRes = (spawnRes, true)
  ∧ (build (some (.connected q)) (.error e) spawnRes).2 = .error e
  ∧ (build (some (.connected q)) (.error e) spawnRes).1
      = some (.connected (q ++ [BuildEvent.Building, BuildEvent.Error e])) := by
  refine ⟨rfl, rfl, rfl, ?_⟩
  simp [build, do_build, send_build_event, chanSend]

/-- Claim C9: in the `/build_events` streaming loop, an event whose JSON
serialization fails is skipped — nothing is pushed for it and the loop
continues with the remaining events, producing exactly the messages of the
same stream without that event. -/
theorem C9_skip_unserializable (pre post : List BuildEvent) (e : BuildEvent)
    (h : ∃ msg, serializeBuildEvent e = .error msg) :
    sse_endpoint_loop (pre ++ e :: post) = sse_endpoint_loop (pre ++ post) := by
  obtain ⟨msg, hmsg⟩ := h
  induction pre with
  | nil => simp [sse_endpoint_loop, hmsg]
  | cons ev rest ih =>
    simp only [List.cons_append, sse_endpoint_loop]
    cases hev : serializeBuildEvent ev <;> simp [ih]

/-- Witness for C9: an `Error` event between a `Building` and a `Success`
event is skipped, and the stream of pushed messages is unchanged. -/
theorem C9_skip_unserializable_witness :
    sse_endpoint_loop [BuildEvent.Building, BuildEvent.Error "x", BuildEvent.Success]
      = sse_endpoint_loop [BuildEvent.Building, BuildEvent.Success] :=
  C9_skip_unserializable [BuildEvent.Building] [BuildEvent.Success]
    (BuildEvent.Error "x") ⟨_, rfl⟩

/-- Claim C10: when the wrapped handling returned 404 but reading the root
document fails, the middleware propagates the read error instead of building
the 200 fallback response. -/
theorem C10_read_error_propagates (res : Response) (e : String)
    (h : res.status = 404) :
    IndexHtmlMiddleware.handle res (.error e) = .error e := by
  simp [IndexHtmlMiddleware.handle, h, load_index_html]

/-- Witness for C10: a 404 response whose index read fails with `"io"` yields
the error `"io"`, not a 200 response. -/
theorem C10_read_error_propagates_witness :
    IndexHtmlMiddleware.handle ⟨404, none, []⟩ (.error "io") = .error "io" :=
  C10_read_error_propagates ⟨404, none, []⟩ "io" rfl

end Trunk
